import Mathlib

/-!
Verification of the coverage-report pipeline in `src/main.js` of
xarantolus/github-actions-report-lcov.

The JavaScript source is shallowly embedded: JS numbers that carry coverage
percentages become `ℚ`; the JS `Number` coercion of the minimum-coverage
input becomes `Option ℚ` (with `none` standing for `NaN`); thrown exceptions
become `Except String`; the host services (workflow-run listing, artifact
store, file system, lcov invocations) are modelled as environment fields, so
every function of the source becomes a pure Lean function of its environment.
The side effects of the top-level `run` are recorded as an event trace so that
ordering properties (what is attempted before the run is marked failed) can
be stated directly.
-/

namespace ReportLcov

/-! ## String helpers: JS `includes`, `startsWith`, `toFixed(2)` -/

/-- Boolean test that the first list is an initial segment of the second. -/
def prefixOfB : List Char → List Char → Bool
  | [], _ => true
  | _ :: _, [] => false
  | a :: as, b :: bs => if a = b then prefixOfB as bs else false

/-- Boolean test that `pat` occurs contiguously somewhere in the haystack. -/
def sublistAt (pat : List Char) : List Char → Bool
  | [] => prefixOfB pat []
  | c :: rest => prefixOfB pat (c :: rest) || sublistAt pat rest

/-- JS `s.includes(t)`: substring containment. -/
def strIncludes (s t : String) : Bool :=
  sublistAt t.data s.data

/-- JS `s.startsWith(t)`: prefix test on the character sequences. -/
def jsStartsWith (s t : String) : Bool :=
  prefixOfB t.data s.data

/-- The whitespace characters relevant to trimming the action inputs. -/
def isWhitespaceB (c : Char) : Bool :=
  c = ' ' || c = '\t' || c = '\n' || c = '\r'

/-- JS `s.trim()`: strip leading and trailing whitespace. -/
def strTrim (s : String) : String :=
  String.mk (((s.data.dropWhile isWhitespaceB).reverse.dropWhile isWhitespaceB).reverse)

/-- Two-digit zero-padding for the fractional part of `toFixed(2)`. -/
def pad2 (n : ℕ) : String :=
  if n < 10 then "0" ++ toString n else toString n

/-- JS `Number.prototype.toFixed(2)`: round the magnitude to the nearest
hundredth, ties away from zero, and print with exactly two decimals. -/
def toFixed2 (q : ℚ) : String :=
  let sgn := if q < 0 then "-" else ""
  let n := (200 * q.num.natAbs + q.den) / (2 * q.den)
  sgn ++ toString (n / 100) ++ "." ++ pad2 (n % 100)

/-- JS `a >= m` where `a` is a number and `m` is the `Number` coercion of the
minimum-coverage input string; `none` models `NaN`, for which every
comparison is false. -/
def jsGe (a : ℚ) : Option ℚ → Bool
  | none => false
  | some m => decide (m ≤ a)

/-- Node `path.join(dir, file)` for the one shape the source uses. -/
def pathJoin (dir file : String) : String :=
  dir ++ "/" ++ file

/-- Whether an `Except` value is a success. -/
def exceptIsOk {ε α : Type} : Except ε α → Bool
  | .ok _ => true
  | .error _ => false

/-! ## Data model -/

/-- One entry of the host's workflow-run listing. -/
structure WorkflowRun where
  id : ℕ
  headSha : String
  branch : String
  conclusion : String
deriving DecidableEq

/-- The part of the pull-request payload the locator reads. -/
structure PRInfo where
  baseRef : String
deriving DecidableEq

/-- A comment on the pull request. -/
structure Comment where
  id : ℕ
  body : String
deriving DecidableEq

/-- Result of `downloadTargetBranchCoverage`: the downloaded file path (the
source can propagate an undefined path, hence `Option`), the baseline run id
and that run's head commit SHA. -/
structure DownloadedCoverage where
  path : Option String
  runId : ℕ
  targetBranchSha : String
deriving DecidableEq

/-- Result of `calculatePreviousCoverage`: the baseline aggregate coverage
together with the downloaded-coverage fields (the source spreads them). -/
structure PrevCoverage where
  coverage : ℚ
  path : Option String
  runId : ℕ
  targetBranchSha : String
deriving DecidableEq

/-- Environment of the baseline lookup: the ambient pull-request payload, the
host's workflow-run listing (newest first, all branches and conclusions), the
artifact store and the lcov aggregate extraction. -/
structure BaselineEnv where
  pr : Option PRInfo
  runs : List WorkflowRun
  artifactName : String
  tmpPath : String
  artifactFound : ℕ → Bool
  downloadFiles : ℕ → List String
  lcovTotalOf : Option String → Except String ℚ

/-! ## Artifact locator and baseline resolver (main.js 132–231) -/

/-- The host's `listWorkflowRunsForRepo` endpoint: runs filtered to a branch,
newest first, truncated to `per_page`.  The source passes no status filter,
so runs of every conclusion are listed. -/
def listWorkflowRunsForRepo (runs : List WorkflowRun) (branch : String)
    (perPage : ℕ) : List WorkflowRun :=
  (runs.filter (fun r => r.branch == branch)).take perPage

/-- `downloadSingleFileArtifact` (main.js 207–231): look the artifact up by
run id, download it into `downloadDir`, then require exactly one file to have
appeared there; return the resolved path of that file. -/
def downloadSingleFileArtifact (env : BaselineEnv) (runId : ℕ)
    (downloadDir : String) : Except String (Option String) :=
  if env.artifactFound runId then
    let files := env.downloadFiles runId
    if files.length = 1 then
      .ok (some (pathJoin downloadDir (files.headD "")))
    else
      .error ("Expected a single file, but found " ++ toString files.length
        ++ " files in " ++ downloadDir ++ ".")
  else
    .ok none

/-- `downloadTargetBranchCoverage` (main.js 154–205): take the single most
recent workflow run the host lists for the PR base branch, look up the named
artifact on that run, and download it. -/
def downloadTargetBranchCoverage (env : BaselineEnv) :
    Except String (Option DownloadedCoverage) :=
  match env.pr with
  | none => .ok none
  | some pr =>
    let targetBranch := pr.baseRef
    match listWorkflowRunsForRepo env.runs targetBranch 1 with
    | [] => .ok none
    | r :: _ =>
      if env.artifactFound r.id then
        match downloadSingleFileArtifact env r.id
            (env.tmpPath ++ "/" ++ toString r.id ++ "-" ++ env.artifactName
              ++ "-lcov.info") with
        | .error e => .error e
        | .ok p =>
          .ok (some { path := p, runId := r.id, targetBranchSha := r.headSha })
      else
        .ok none

/-- `calculatePreviousCoverage` (main.js 132–151): the download is wrapped in
a try/catch whose catch logs a warning and returns null; a falsy download
result also becomes null; on success the aggregate coverage of the downloaded
file is computed (outside the try) and spread into the record. -/
def calculatePreviousCoverage (env : BaselineEnv) :
    Except String (Option PrevCoverage) :=
  match downloadTargetBranchCoverage env with
  | .error _ => .ok none
  | .ok none => .ok none
  | .ok (some dl) =>
    match env.lcovTotalOf dl.path with
    | .error e => .error e
    | .ok q =>
      .ok (some { coverage := q, path := dl.path, runId := dl.runId, targetBranchSha := dl.targetBranchSha })

/-! ## Comment reconciler (main.js 94–130) -/

/-- The host's `listComments` endpoint as the source calls it: a single
request with no page parameter, which returns only the first page of the
pull request's comments (`perPage` models the host's page size). -/
def listComments (comments : List Comment) (perPage : ℕ) : List Comment :=
  comments.take perPage

/-- `createComment` (main.js 94–103): unconditionally post a new comment;
the host assigns it a fresh id and appends it to the thread. -/
def createComment (comments : List Comment) (freshId : ℕ) (body : String) :
    List Comment :=
  comments ++ [{ id := freshId, body := body }]

/-- `upsertComment` (main.js 105–130): fetch the comment listing, find the
first comment whose body includes the header marker, update it in place when
found, otherwise create a new comment. -/
def upsertComment (comments : List Comment) (perPage : ℕ) (freshId : ℕ)
    (body commentHeaderPrefix : String) : List Comment :=
  match (listComments comments perPage).find?
      (fun c => strIncludes c.body commentHeaderPrefix) with
  | some existing =>
    comments.map (fun c => if c.id = existing.id then { c with body := body } else c)
  | none => createComment comments freshId body

/-! ## Changed-file filter (main.js 348–364) -/

/-- The predicate of the filter callback in `detail`: data rows are kept when
they start with some changed file, and the first three lines (indices 0–2)
are kept unconditionally. -/
def keepLine (changedFiles : List String) (i : ℕ) (line : String) : Bool :=
  if i ≤ 2 then true
  else changedFiles.any (fun cf => jsStartsWith line cf)

/-- `lines.filter((line, index) => ...)` of `detail`, with the running index
made explicit. -/
def detailFilterFrom (changedFiles : List String) : ℕ → List String → List String
  | _, [] => []
  | i, line :: rest =>
    if keepLine changedFiles i line then
      line :: detailFilterFrom changedFiles (i + 1) rest
    else
      detailFilterFrom changedFiles (i + 1) rest

/-- The filtering step of `detail`, starting at index 0. -/
def detailFilter (lines changedFiles : List String) : List String :=
  detailFilterFrom changedFiles 0 lines

/-- The tail of `detail` (main.js 348–364): filter the rows to the changed
files, return the n/a sentinel when only the 3-line header remains, else the
indented joined table. -/
def detailText (lines changedFiles : List String) : String :=
  let filtered := detailFilter lines changedFiles
  if filtered.length = 3 then " n/a"
  else "\n  " ++ String.intercalate "\n  " filtered

/-! ## Pipeline coordinator (main.js 14–92) -/

/-- The event names on which the comment path runs (main.js 12). -/
def events : List String :=
  ["pull_request", "pull_request_target"]

/-- One observable step of the top-level `run`, in execution order. -/
inductive Event where
  | info (msg : String)
  | htmlUploaded (name : String)
  | baselineLookup
  | published (body : String)
  | coverageUploaded (name : String)
  | outputSet (value : ℚ)
  | failed (msg : String)
deriving DecidableEq

/-- Environment of the top-level `run`: the action inputs, the ambient
context, the outcomes of the two external lcov/genhtml invocations, the text
the render steps produce, and the baseline environment. `totalCoverageStr`
and the error-message strings carry the host's rendering of values the
embedding does not compute (JS number printing, exec error text). -/
structure RunEnv where
  titlePrefix : String
  additionalMessage : String
  updateComment : Bool
  coverageArtifactName : String
  githubToken : String
  minimumCoverageStr : String
  minimumCoverageNum : Option ℚ
  htmlArtifactName : String
  eventName : String
  genhtmlFails : Bool
  genhtmlErrorMsg : String
  mergeFails : Bool
  mergeErrorMsg : String
  totalCoverage : ℚ
  totalCoverageStr : String
  summary : String
  detailLines : List String
  changedFiles : List String
  baseline : BaselineEnv
  sha : String
  prNumber : ℕ
  repoOwner : String
  repoName : String
  workflow : String
  runNumber : ℕ
  runId : ℕ

/-- The gate error message (main.js 31). -/
def errorMessage (env : RunEnv) : String :=
  "The code coverage is too low: " ++ env.totalCoverageStr
    ++ ". Expected at least " ++ env.minimumCoverageStr ++ "."

/-- The comment header marker (main.js 44): deterministic per PR, embedding
only the configurable title prefix. -/
def commentHeaderPrefix (titlePrefix : String) : String :=
  "### " ++ (if titlePrefix = "" then "" else titlePrefix ++ " ")
    ++ "[LCOV](https://github.com/marketplace/actions/report-lcov) of commit"

/-- The compare URL of the diff line (main.js 48). -/
def compareUrl (env : RunEnv) (previousSha : String) : String :=
  "https://github.com/" ++ env.repoOwner ++ "/" ++ env.repoName ++ "/compare/"
    ++ previousSha ++ "..." ++ env.sha

/-- The diff line of the comment body (main.js 46–55): a baseline diff when a
previous coverage was resolved, the absolute total-coverage line otherwise. -/
def diffMessage (env : RunEnv) : Option PrevCoverage → String
  | some p =>
    let diff := env.totalCoverage - p.coverage
    let diffRounded := toFixed2 diff
    let sign := if 0 < diff then "+" else ""
    "This pull request changes total coverage " ++ sign ++ diffRounded
      ++ "% (" ++ toFixed2 p.coverage ++ "% -> " ++ toFixed2 env.totalCoverage
      ++ "%) for this [diff](" ++ compareUrl env p.targetBranchSha ++ ")"
  | none => "Total coverage: " ++ toFixed2 env.totalCoverage ++ "%"

/-- The part of the comment body before the diff line (main.js 56). -/
def bodyPrefix (env : RunEnv) : String :=
  commentHeaderPrefix env.titlePrefix ++ " [<code>" ++ env.sha.take 7
    ++ "</code>](" ++ toString env.prNumber ++ "/commits/" ++ env.sha
    ++ ") during [" ++ env.workflow ++ " #" ++ toString env.runNumber
    ++ "](../actions/runs/" ++ toString env.runId ++ ")\n"

/-- The part of the comment body after the diff line (main.js 56). -/
def bodySuffix (env : RunEnv) : String :=
  "\n<pre>" ++ env.summary ++ "\n\nFiles changed coverage rate:"
    ++ detailText env.detailLines env.changedFiles ++ "</pre>"
    ++ (if env.additionalMessage = "" then "" else "\n" ++ env.additionalMessage)

/-- The full comment body (main.js 56–60), with the gate notice appended when
the minimum is not reached. -/
def composeBody (env : RunEnv) (prev : Option PrevCoverage) (reached : Bool) :
    String :=
  let base := bodyPrefix env ++ (diffMessage env prev ++ bodySuffix env)
  if reached then base else base ++ "\n:no_entry: " ++ errorMessage env

/-- Events of the `genhtml` helper after a successful tool invocation
(main.js 244–259): the HTML report is uploaded when the artifact-name input
is non-empty — this check does not involve the github token. -/
def htmlEvents (env : RunEnv) : List Event :=
  if strTrim env.htmlArtifactName = "" then
    [Event.info "Skip uploading artifacts"]
  else
    [Event.info "Uploading artifacts.",
     Event.htmlUploaded (strTrim env.htmlArtifactName)]

/-- Events of the skipped-comment branches (main.js 63–69). -/
def skipCommentEvents (env : RunEnv) : List Event :=
  if strTrim env.githubToken = "" then
    [Event.info "github-token received is empty. Skipping writing a comment in the PR.",
     Event.info "Note: This could happen even if github-token was provided in workflow file. It could be because your github token does not have permissions for commenting in target repo."]
  else
    [Event.info "The event is not a pull request. Skipping writing a comment.",
     Event.info ("The event type is: " ++ env.eventName)]

/-- Events of the coverage-artifact upload (main.js 71–82): gated on a
non-empty token and a non-empty coverage-artifact-name. -/
def uploadEvents (env : RunEnv) : List Event :=
  if strTrim env.githubToken ≠ "" ∧ env.coverageArtifactName ≠ "" then
    [Event.info "Uploading coverage artifact to the workflow run.",
     Event.coverageUploaded env.coverageArtifactName]
  else
    [Event.info "Skipping coverage artifact upload."]

/-- Events of the minimum-coverage gate (main.js 86–88): a throw, caught by
the top-level handler and turned into the failed state. -/
def gateEvents (env : RunEnv) : List Event :=
  if jsGe env.totalCoverage env.minimumCoverageNum then []
  else [Event.failed (errorMessage env)]

/-- The top-level `run` (main.js 14–92) as an event trace.  `genhtml` runs
first and a tool failure there aborts; then the merge, whose failure aborts
after the genhtml events; then the comment branch (token present and PR
event), where an exception escaping `calculatePreviousCoverage` aborts; then
the coverage-artifact upload, the total-coverage output, and finally the
gate.  Every abort is the top-level catch converting the exception into the
failed state. -/
def run (env : RunEnv) : List Event :=
  if env.genhtmlFails then
    [Event.failed env.genhtmlErrorMsg]
  else if env.mergeFails then
    htmlEvents env ++ [Event.failed env.mergeErrorMsg]
  else if strTrim env.githubToken ≠ "" ∧ env.eventName ∈ events then
    match calculatePreviousCoverage env.baseline with
    | .error e => htmlEvents env ++ [Event.baselineLookup, Event.failed e]
    | .ok prev =>
      htmlEvents env
        ++ [Event.baselineLookup,
            Event.published (composeBody env prev
              (jsGe env.totalCoverage env.minimumCoverageNum))]
        ++ uploadEvents env ++ [Event.outputSet env.totalCoverage]
        ++ gateEvents env
  else
    htmlEvents env ++ skipCommentEvents env ++ uploadEvents env
      ++ [Event.outputSet env.totalCoverage] ++ gateEvents env

/-! ## Concrete environments used to evaluate the definitions -/

/-- A baseline environment outside a pull-request event: the lookup returns
the absent result without consulting the host. -/
def baselineNoPR : BaselineEnv :=
  { pr := none, runs := [], artifactName := "cov", tmpPath := "/tmp/a",
    artifactFound := fun _ => false, downloadFiles := fun _ => [],
    lcovTotalOf := fun _ => .ok 0 }

/-- A baseline environment whose artifact download leaves two files in the
destination directory, so the single-file contract throws. -/
def baselineTwoFiles : BaselineEnv :=
  { pr := some { baseRef := "main" },
    runs := [{ id := 5, headSha := "abcdef1", branch := "main", conclusion := "success" }],
    artifactName := "cov", tmpPath := "/tmp/a",
    artifactFound := fun _ => true,
    downloadFiles := fun _ => ["a.info", "b.info"],
    lcovTotalOf := fun _ => .ok 0 }

/-- A baseline environment where the most recent run on the target branch
concluded in failure while an older run succeeded. -/
def baselineFailedRun : BaselineEnv :=
  { pr := some { baseRef := "main" },
    runs := [{ id := 2, headSha := "failsha", branch := "main", conclusion := "failure" },
             { id := 1, headSha := "oksha", branch := "main", conclusion := "success" }],
    artifactName := "cov", tmpPath := "/tmp/a",
    artifactFound := fun _ => true,
    downloadFiles := fun _ => ["lcov.info"],
    lcovTotalOf := fun _ => .ok 50 }

/-- A baseline environment that resolves to a recorded coverage of 80%. -/
def baselineEighty : BaselineEnv :=
  { pr := some { baseRef := "main" },
    runs := [{ id := 7, headSha := "basesha1", branch := "main", conclusion := "success" }],
    artifactName := "cov", tmpPath := "/tmp/a",
    artifactFound := fun _ => true,
    downloadFiles := fun _ => ["lcov.info"],
    lcovTotalOf := fun _ => .ok 80 }

/-- A run environment with a token, a pull-request event, aggregate coverage
85 and configured minimum 90, no baseline available. -/
def runEnvBase : RunEnv :=
  { titlePrefix := "", additionalMessage := "", updateComment := false,
    coverageArtifactName := "cov", githubToken := "token",
    minimumCoverageStr := "90", minimumCoverageNum := some 90,
    htmlArtifactName := "", eventName := "pull_request",
    genhtmlFails := false, genhtmlErrorMsg := "genhtml exited with code 1",
    mergeFails := false, mergeErrorMsg := "lcov exited with code 1",
    totalCoverage := 85, totalCoverageStr := "85",
    summary := "lines: 85.0%", detailLines := ["Filename", "Lines", "seprow"],
    changedFiles := [], baseline := baselineNoPR, sha := "0123456abcdef",
    prNumber := 12, repoOwner := "acme", repoName := "widget",
    workflow := "CI", runNumber := 3, runId := 99 }

/-- A run whose merge step fails: the lcov merge exits non-zero. -/
def envMergeFail : RunEnv :=
  { runEnvBase with mergeFails := true }

/-- A run with an empty github-token but a configured HTML artifact name. -/
def envNoToken : RunEnv :=
  { runEnvBase with githubToken := "", htmlArtifactName := "page" }

/-- A run whose minimum-coverage input does not coerce to a number. -/
def envNanMin : RunEnv :=
  { runEnvBase with minimumCoverageNum := none, minimumCoverageStr := "ninety" }

/-- A run with current coverage 82.5% against a resolved baseline of 80%. -/
def envDiff : RunEnv :=
  { runEnvBase with
    baseline := baselineEighty
    totalCoverage := ⟨165, 2, by decide, by decide⟩
    totalCoverageStr := "82.5"
    minimumCoverageNum := some 50
    minimumCoverageStr := "50" }

/-- The baseline record `baselineEighty` resolves to. -/
def prevEighty : PrevCoverage :=
  { coverage := 80, path := some "/tmp/a/7-cov-lcov.info/lcov.info",
    runId := 7, targetBranchSha := "basesha1" }

/-! ## Helper lemmas -/

theorem prefixOfB_append (t b : List Char) : prefixOfB t (t ++ b) = true := by
  induction t with
  | nil => rfl
  | cons c cs ih => simp [prefixOfB, ih]

theorem sublistAt_of_prefixOfB (pat hay : List Char)
    (h : prefixOfB pat hay = true) : sublistAt pat hay = true := by
  cases hay with
  | nil => simpa [sublistAt] using h
  | cons c rest => simp [sublistAt, h]

theorem sublistAt_append_left (a pat hay : List Char)
    (h : sublistAt pat hay = true) : sublistAt pat (a ++ hay) = true := by
  induction a with
  | nil => simpa using h
  | cons c cs ih => simp [sublistAt, ih]

theorem strIncludes_middle (a t b : String) :
    strIncludes (a ++ (t ++ b)) t = true := by
  unfold strIncludes
  rw [String.data_append, String.data_append]
  exact sublistAt_append_left _ _ _
    (sublistAt_of_prefixOfB _ _ (prefixOfB_append _ _))

theorem find?_append_of_none {α : Type} (p : α → Bool) (l1 l2 : List α)
    (h : l1.find? p = none) : (l1 ++ l2).find? p = l2.find? p := by
  induction l1 with
  | nil => rfl
  | cons a as ih =>
    rw [List.find?_eq_none] at h
    rw [List.cons_append, List.find?_cons_of_neg _ (h a (by simp))]
    exact ih (List.find?_eq_none.mpr (fun x hx => h x (by simp [hx])))

theorem map_update_of_fresh (comments : List Comment) (freshId : ℕ) (b : String)
    (h : ∀ c ∈ comments, c.id ≠ freshId) :
    comments.map (fun c => if c.id = freshId then { c with body := b } else c)
      = comments := by
  induction comments with
  | nil => rfl
  | cons c cs ih =>
    rw [List.map_cons, if_neg (h c (by simp)),
      ih (fun x hx => h x (by simp [hx]))]

theorem detailFilterFrom_of_three_le (changedFiles : List String) :
    ∀ (rows : List String) (i : ℕ), 3 ≤ i →
      detailFilterFrom changedFiles i rows
        = rows.filter (fun r => changedFiles.any (fun cf => jsStartsWith r cf)) := by
  intro rows
  induction rows with
  | nil => intro i _; rfl
  | cons r rest ih =>
    intro i hi
    have hk : keepLine changedFiles i r
        = changedFiles.any (fun cf => jsStartsWith r cf) := by
      unfold keepLine
      rw [if_neg (by omega)]
    rw [detailFilterFrom, hk, List.filter_cons, ih (i + 1) (by omega)]

theorem newline_indent_ne_na (s : String) : ("\n  " ++ s) ≠ " n/a" := by
  intro h
  have hd := congrArg String.data h
  rw [String.data_append] at hd
  have h1 : ("\n  ").data = ['\n', ' ', ' '] := rfl
  have h2 : (" n/a").data = [' ', 'n', '/', 'a'] := rfl
  rw [h1, h2] at hd
  simp only [List.cons_append, List.cons.injEq] at hd
  exact absurd hd.1 (by decide)

theorem failed_not_mem_htmlEvents (env : RunEnv) (m : String) :
    Event.failed m ∉ htmlEvents env := by
  unfold htmlEvents
  split <;> simp

theorem failed_not_mem_skipCommentEvents (env : RunEnv) (m : String) :
    Event.failed m ∉ skipCommentEvents env := by
  unfold skipCommentEvents
  split <;> simp

theorem failed_not_mem_uploadEvents (env : RunEnv) (m : String) :
    Event.failed m ∉ uploadEvents env := by
  unfold uploadEvents
  split <;> simp

theorem gateEvents_of_reached (env : RunEnv)
    (h : jsGe env.totalCoverage env.minimumCoverageNum = true) :
    gateEvents env = [] := by
  unfold gateEvents
  rw [h]
  rfl

theorem gateEvents_of_not_reached (env : RunEnv)
    (h : jsGe env.totalCoverage env.minimumCoverageNum = false) :
    gateEvents env = [Event.failed (errorMessage env)] := by
  unfold gateEvents
  rw [h]
  rfl

theorem run_of_calc_ok (env : RunEnv) (hg : env.genhtmlFails = false)
    (hm : env.mergeFails = false) (prev : Option PrevCoverage)
    (hcalc : calculatePreviousCoverage env.baseline = .ok prev) :
    run env =
      htmlEvents env
        ++ (if strTrim env.githubToken ≠ "" ∧ env.eventName ∈ events then
              [Event.baselineLookup,
               Event.published (composeBody env prev
                 (jsGe env.totalCoverage env.minimumCoverageNum))]
            else skipCommentEvents env)
        ++ uploadEvents env ++ [Event.outputSet env.totalCoverage]
        ++ gateEvents env := by
  unfold run
  rw [hg, hm]
  by_cases hc : strTrim env.githubToken ≠ "" ∧ env.eventName ∈ events
  · rw [if_pos hc]
    simp [hcalc]
    rw [if_pos hc]
    rfl
  · rw [if_neg hc]
    simp [hc]

theorem no_failed_of_reached (env : RunEnv) (hg : env.genhtmlFails = false)
    (hm : env.mergeFails = false) (prev : Option PrevCoverage)
    (hcalc : calculatePreviousCoverage env.baseline = .ok prev)
    (hr : jsGe env.totalCoverage env.minimumCoverageNum = true) (m : String) :
    Event.failed m ∉ run env := by
  rw [run_of_calc_ok env hg hm prev hcalc, gateEvents_of_reached env hr]
  intro hmem
  rw [List.append_nil] at hmem
  rcases List.mem_append.mp hmem with h1 | ho
  · rcases List.mem_append.mp h1 with h2 | hu
    · rcases List.mem_append.mp h2 with hh | hcmt
      · exact failed_not_mem_htmlEvents env m hh
      · by_cases hc : strTrim env.githubToken ≠ "" ∧ env.eventName ∈ events
        · rw [if_pos hc] at hcmt
          simp at hcmt
        · rw [if_neg hc] at hcmt
          exact failed_not_mem_skipCommentEvents env m hcmt
    · exact failed_not_mem_uploadEvents env m hu
  · simp at ho

/-! ## The claims -/

/-- Claim C7: downloading the baseline artifact fails fatally if and only if
the number of files appearing in the destination directory differs from
exactly one; with exactly one file its resolved full path is returned, and a
0-file or 2-or-more-file result always raises rather than silently picking
one file. -/
theorem single_file_artifact_contract (env : BaselineEnv) (runId : ℕ)
    (dir : String) (hfound : env.artifactFound runId = true) :
    ((env.downloadFiles runId).length = 1 →
      downloadSingleFileArtifact env runId dir
        = .ok (some (pathJoin dir ((env.downloadFiles runId).headD "")))) ∧
    ((env.downloadFiles runId).length ≠ 1 →
      downloadSingleFileArtifact env runId dir
        = .error ("Expected a single file, but found "
            ++ toString (env.downloadFiles runId).length ++ " files in "
            ++ dir ++ ".")) := by
  unfold downloadSingleFileArtifact
  rw [hfound]
  constructor
  · intro h1
    simp [h1]
  · intro h1
    simp [h1]

/-- Evaluation of the single-file contract at a two-file download: the
download raises instead of picking one of the files. -/
theorem single_file_artifact_contract_witness :
    baselineTwoFiles.artifactFound 5 = true ∧
    (baselineTwoFiles.downloadFiles 5).length ≠ 1 ∧
    downloadSingleFileArtifact baselineTwoFiles 5 "/tmp/a/5-cov-lcov.info"
      = .error ("Expected a single file, but found "
          ++ toString (baselineTwoFiles.downloadFiles 5).length ++ " files in "
          ++ "/tmp/a/5-cov-lcov.info" ++ ".") :=
  ⟨rfl, by decide,
    (single_file_artifact_contract baselineTwoFiles 5 "/tmp/a/5-cov-lcov.info"
      rfl).2 (by decide)⟩

/-- Claim C2: an exception of the baseline lookup is caught and converted to
the absent result, an absent download stays absent, and a failing lookup
never marks the pipeline run failed. -/
theorem baseline_errors_become_absent (env : BaselineEnv) :
    (∀ e, downloadTargetBranchCoverage env = .error e →
      calculatePreviousCoverage env = .ok none) ∧
    (downloadTargetBranchCoverage env = .ok none →
      calculatePreviousCoverage env = .ok none) ∧
    (∀ (renv : RunEnv) (e : String), renv.genhtmlFails = false →
      renv.mergeFails = false →
      downloadTargetBranchCoverage renv.baseline = .error e →
      jsGe renv.totalCoverage renv.minimumCoverageNum = true →
      ∀ m, Event.failed m ∉ run renv) := by
  refine ⟨?_, ?_, ?_⟩
  · intro e he
    unfold calculatePreviousCoverage
    rw [he]
  · intro he
    unfold calculatePreviousCoverage
    rw [he]
  · intro renv e hg hm he hr m
    have hcalc : calculatePreviousCoverage renv.baseline = .ok none := by
      unfold calculatePreviousCoverage
      rw [he]
    exact no_failed_of_reached renv hg hm none hcalc hr m

/-- Evaluation of the resolver at a lookup that throws (two files appear in
the artifact download directory): the error is converted to the absent
result. -/
theorem baseline_errors_become_absent_witness :
    downloadTargetBranchCoverage baselineTwoFiles
      = .error "Expected a single file, but found 2 files in /tmp/a/5-cov-lcov.info." ∧
    calculatePreviousCoverage baselineTwoFiles = .ok none :=
  ⟨rfl,
    (baseline_errors_become_absent baselineTwoFiles).1
      "Expected a single file, but found 2 files in /tmp/a/5-cov-lcov.info."
      rfl⟩

/-- Claim C5 (code divergence): the locator takes the single most recent
workflow run the host lists for the target branch without any success
filter, so when the most recent run concluded in failure the baseline is
resolved from that failed run even though an older successful run exists on
the branch. -/
theorem locator_ignores_run_conclusion :
    downloadTargetBranchCoverage baselineFailedRun
      = .ok (some { path := some "/tmp/a/2-cov-lcov.info/lcov.info", runId := 2, targetBranchSha := "failsha" }) ∧
    (listWorkflowRunsForRepo baselineFailedRun.runs "main" 1).map
        WorkflowRun.conclusion = ["failure"] ∧
    baselineFailedRun.runs[1]?
      = some { id := 1, headSha := "oksha", branch := "main", conclusion := "success" } := by
  refine ⟨rfl, rfl, rfl⟩

/-- Claim C4: on a listing of three header lines followed by data rows, the
filter keeps the header unconditionally, keeps a data row if and only if it
starts with some changed file, preserves the original order (the result is a
`List.filter` of the rows), and produces the n/a sentinel exactly when no
data row survives — in particular for an empty changed-file set. -/
theorem changed_file_filter_spec (h1 h2 h3 : String)
    (rows changedFiles : List String) :
    detailFilter (h1 :: h2 :: h3 :: rows) changedFiles
      = h1 :: h2 :: h3
        :: rows.filter (fun r => changedFiles.any (fun cf => jsStartsWith r cf)) ∧
    (detailText (h1 :: h2 :: h3 :: rows) changedFiles = " n/a" ↔
      rows.filter (fun r => changedFiles.any (fun cf => jsStartsWith r cf)) = []) ∧
    (changedFiles = [] →
      detailText (h1 :: h2 :: h3 :: rows) changedFiles = " n/a") := by
  have hfil : detailFilter (h1 :: h2 :: h3 :: rows) changedFiles
      = h1 :: h2 :: h3
        :: rows.filter (fun r => changedFiles.any (fun cf => jsStartsWith r cf)) := by
    unfold detailFilter
    simp only [detailFilterFrom, keepLine]
    norm_num
    exact detailFilterFrom_of_three_le changedFiles rows 3 (by omega)
  have hiff : detailText (h1 :: h2 :: h3 :: rows) changedFiles = " n/a" ↔
      rows.filter (fun r => changedFiles.any (fun cf => jsStartsWith r cf)) = [] := by
    unfold detailText
    rw [hfil]
    constructor
    · intro h
      by_contra hne
      have hlen : (h1 :: h2 :: h3
          :: rows.filter (fun r => changedFiles.any (fun cf => jsStartsWith r cf))).length
          ≠ 3 := by
        simp only [List.length_cons]
        have := List.length_pos.mpr hne
        omega
      rw [if_neg hlen] at h
      exact newline_indent_ne_na _ h
    · intro h
      rw [h]
      simp
  refine ⟨hfil, hiff, ?_⟩
  intro hcf
  apply hiff.mpr
  subst hcf
  simp

/-- Evaluation of the changed-file filter: a matching data row is kept by
prefix, a non-matching one dropped, and the empty changed-file set yields the
sentinel. -/
theorem changed_file_filter_spec_witness :
    detailFilter ["H1", "H2", "H3", "src/a.c 50%", "lib/b.c 10%"] ["src/"]
      = ["H1", "H2", "H3", "src/a.c 50%"] ∧
    detailText ["H1", "H2", "H3", "lib/b.c 10%"] [] = " n/a" :=
  ⟨by
    have h := (changed_file_filter_spec "H1" "H2" "H3"
      ["src/a.c 50%", "lib/b.c 10%"] ["src/"]).1
    rw [h]
    decide,
   (changed_file_filter_spec "H1" "H2" "H3" ["lib/b.c 10%"] []).2.2 rfl⟩

/-- Claim C3 counterexample: the reconciler reads only one page of comments.
With a page size of 1 and one unmarked pre-existing comment, the marked
comment created by the first publish is beyond the first page, so the second
publish creates a duplicate: two marked comments remain and the claim's
"exactly one marked comment" is false. -/
theorem upsert_twice_duplicates :
    (upsertComment
        (upsertComment [{ id := 1, body := "first" }] 1 2 "HDR one" "HDR")
        1 3 "HDR two" "HDR").filter (fun c => strIncludes c.body "HDR")
      = [{ id := 2, body := "HDR one" }, { id := 3, body := "HDR two" }] := by
  rfl

/-- Claim C3 (amended): when the pull request's comments fit within the
listed page and none of them carries the marker, publishing twice in update
mode updates the comment created by the first publish in place, leaving
exactly one marked comment whose body is the second publish's body. -/
theorem upsert_single_page_idempotent (comments : List Comment)
    (perPage fresh1 fresh2 : ℕ) (body1 body2 header : String)
    (hlen : comments.length < perPage)
    (hnomark : ∀ c ∈ comments, strIncludes c.body header = false)
    (hfresh : ∀ c ∈ comments, c.id ≠ fresh1)
    (hb1 : strIncludes body1 header = true)
    (hb2 : strIncludes body2 header = true) :
    upsertComment (upsertComment comments perPage fresh1 body1 header)
        perPage fresh2 body2 header
      = comments ++ [{ id := fresh1, body := body2 }] ∧
    ((upsertComment (upsertComment comments perPage fresh1 body1 header)
        perPage fresh2 body2 header).filter
        (fun c => strIncludes c.body header)).length = 1 := by
  have htake : comments.take perPage = comments :=
    List.take_of_length_le (le_of_lt hlen)
  have hfind : comments.find? (fun c => strIncludes c.body header) = none :=
    List.find?_eq_none.mpr (fun c hc => by simp [hnomark c hc])
  have hs1 : upsertComment comments perPage fresh1 body1 header
      = comments ++ [({ id := fresh1, body := body1 } : Comment)] := by
    unfold upsertComment listComments
    rw [htake, hfind]
    rfl
  have htake2 : (comments ++ [({ id := fresh1, body := body1 } : Comment)]).take perPage
      = comments ++ [({ id := fresh1, body := body1 } : Comment)] := by
    apply List.take_of_length_le
    rw [List.length_append]
    simp only [List.length_singleton]
    omega
  have hfind2 : (comments ++ [({ id := fresh1, body := body1 } : Comment)]).find?
      (fun c => strIncludes c.body header)
      = some ({ id := fresh1, body := body1 } : Comment) := by
    rw [find?_append_of_none _ _ _ hfind]
    simp [List.find?_cons, hb1]
  have hs2 : upsertComment (comments ++ [({ id := fresh1, body := body1 } : Comment)])
      perPage fresh2 body2 header
      = comments ++ [({ id := fresh1, body := body2 } : Comment)] := by
    unfold upsertComment listComments
    rw [htake2, hfind2]
    simp only [List.map_append, map_update_of_fresh comments fresh1 body2 hfresh]
    simp
  rw [hs1, hs2]
  refine ⟨rfl, ?_⟩
  rw [List.filter_append]
  rw [List.filter_eq_nil_iff.mpr (fun c hc => by simp [hnomark c hc])]
  simp [hb2]

/-- Evaluation of the amended reconciler idempotence at a one-comment thread
that fits in the page. -/
theorem upsert_single_page_idempotent_witness :
    upsertComment (upsertComment [{ id := 1, body := "hello" }] 5 2 "HDR a" "HDR")
        5 3 "HDR b" "HDR"
      = [{ id := 1, body := "hello" }] ++ [{ id := 2, body := "HDR b" }] ∧
    ((upsertComment
        (upsertComment [{ id := 1, body := "hello" }] 5 2 "HDR a" "HDR")
        5 3 "HDR b" "HDR").filter (fun c => strIncludes c.body "HDR")).length
      = 1 :=
  upsert_single_page_idempotent [{ id := 1, body := "hello" }] 5 2 3
    "HDR a" "HDR b" "HDR" (by decide) (by decide) (by decide) (by decide)
    (by decide)

theorem exists_ok_of_exceptIsOk {ε α : Type} (x : Except ε α)
    (h : exceptIsOk x = true) : ∃ a, x = .ok a := by
  cases x with
  | ok a => exact ⟨a, rfl⟩
  | error e => simp [exceptIsOk] at h

theorem failed_not_mem_pre (env : RunEnv) (prev : Option PrevCoverage)
    (m : String) :
    Event.failed m ∉
      htmlEvents env
        ++ (if strTrim env.githubToken ≠ "" ∧ env.eventName ∈ events then
              [Event.baselineLookup,
               Event.published (composeBody env prev
                 (jsGe env.totalCoverage env.minimumCoverageNum))]
            else skipCommentEvents env)
        ++ uploadEvents env ++ [Event.outputSet env.totalCoverage] := by
  intro hmem
  rcases List.mem_append.mp hmem with h1 | ho
  · rcases List.mem_append.mp h1 with h2 | hu
    · rcases List.mem_append.mp h2 with hh | hcmt
      · exact failed_not_mem_htmlEvents env m hh
      · by_cases hc : strTrim env.githubToken ≠ "" ∧ env.eventName ∈ events
        · rw [if_pos hc] at hcmt
          simp at hcmt
        · rw [if_neg hc] at hcmt
          exact failed_not_mem_skipCommentEvents env m hcmt
    · exact failed_not_mem_uploadEvents env m hu
  · simp at ho

/-- Claim C1: with the external steps succeeding, when the aggregate coverage
of the merged trace is strictly below the configured minimum (the JS
comparison is false) the trace ends with the single failed event carrying the
gate message — which names both the aggregate coverage and the minimum — and
the total-coverage output, the comment publish (when a token is present and
the event is a pull request) and the coverage-artifact upload (when
configured) all occur before it; when the comparison holds, no failed event
occurs at all. -/
theorem minimum_coverage_gate (env : RunEnv) (hg : env.genhtmlFails = false)
    (hm : env.mergeFails = false)
    (hb : exceptIsOk (calculatePreviousCoverage env.baseline) = true) :
    (jsGe env.totalCoverage env.minimumCoverageNum = false →
      ∃ pre, run env = pre ++ [Event.failed (errorMessage env)] ∧
        (∀ m, Event.failed m ∉ pre) ∧
        Event.outputSet env.totalCoverage ∈ pre ∧
        (strTrim env.githubToken ≠ "" ∧ env.eventName ∈ events →
          ∃ b, Event.published b ∈ pre) ∧
        (strTrim env.githubToken ≠ "" ∧ env.coverageArtifactName ≠ "" →
          Event.coverageUploaded env.coverageArtifactName ∈ pre)) ∧
    (jsGe env.totalCoverage env.minimumCoverageNum = true →
      ∀ m, Event.failed m ∉ run env) ∧
    strIncludes (errorMessage env) env.totalCoverageStr = true ∧
    strIncludes (errorMessage env) env.minimumCoverageStr = true := by
  obtain ⟨prev, hcalc⟩ := exists_ok_of_exceptIsOk _ hb
  refine ⟨?_, ?_, ?_, ?_⟩
  · intro hlt
    rw [run_of_calc_ok env hg hm prev hcalc, gateEvents_of_not_reached env hlt]
    refine ⟨htmlEvents env
        ++ (if strTrim env.githubToken ≠ "" ∧ env.eventName ∈ events then
              [Event.baselineLookup,
               Event.published (composeBody env prev
                 (jsGe env.totalCoverage env.minimumCoverageNum))]
            else skipCommentEvents env)
        ++ uploadEvents env ++ [Event.outputSet env.totalCoverage],
      rfl, failed_not_mem_pre env prev, ?_, ?_, ?_⟩
    · simp
    · intro hc
      rw [if_pos hc]
      exact ⟨composeBody env prev (jsGe env.totalCoverage env.minimumCoverageNum),
        by simp⟩
    · intro hcc
      have hu : uploadEvents env
          = [Event.info "Uploading coverage artifact to the workflow run.",
             Event.coverageUploaded env.coverageArtifactName] := by
        unfold uploadEvents
        rw [if_pos hcc]
      simp [hu]
  · intro hr m
    exact no_failed_of_reached env hg hm prev hcalc hr m
  · unfold errorMessage
    rw [String.append_assoc, String.append_assoc, String.append_assoc]
    exact strIncludes_middle _ _ _
  · unfold errorMessage
    rw [String.append_assoc]
    exact strIncludes_middle _ _ _

/-- Evaluation of the gate at coverage 85 against minimum 90: the run fails
last, after output, comment and upload. -/
theorem minimum_coverage_gate_witness :
    runEnvBase.genhtmlFails = false ∧
    exceptIsOk (calculatePreviousCoverage runEnvBase.baseline) = true ∧
    jsGe runEnvBase.totalCoverage runEnvBase.minimumCoverageNum = false ∧
    (∃ pre, run runEnvBase = pre ++ [Event.failed (errorMessage runEnvBase)] ∧
      (∀ m, Event.failed m ∉ pre) ∧
      Event.outputSet runEnvBase.totalCoverage ∈ pre ∧
      (strTrim runEnvBase.githubToken ≠ "" ∧ runEnvBase.eventName ∈ events →
        ∃ b, Event.published b ∈ pre) ∧
      (strTrim runEnvBase.githubToken ≠ "" ∧ runEnvBase.coverageArtifactName ≠ "" →
        Event.coverageUploaded runEnvBase.coverageArtifactName ∈ pre)) :=
  ⟨rfl, rfl, by decide,
    (minimum_coverage_gate runEnvBase rfl rfl rfl).1 (by decide)⟩

/-- Claim C6 counterexample: when the lcov merge exits non-zero, the run ends
in the failed state without the total-coverage output ever being set — the
output is not set on every invocation. -/
theorem output_skipped_on_merge_failure :
    (∀ q, Event.outputSet q ∉ run envMergeFail) ∧
    Event.failed envMergeFail.mergeErrorMsg ∈ run envMergeFail := by
  have h : run envMergeFail
      = [Event.info "Skip uploading artifacts",
         Event.failed "lcov exited with code 1"] := rfl
  constructor
  · intro q hq
    rw [h] at hq
    simp at hq
  · rw [h]
    simp
    rfl

/-- Claim C6 (amended): the total-coverage output is set on every run that
reaches the output step — in particular on gate failures — but a tool failure
or an exception raised earlier in the pipeline ends the run without setting
it. -/
theorem output_set_when_steps_succeed (env : RunEnv)
    (hg : env.genhtmlFails = false) (hm : env.mergeFails = false)
    (hb : exceptIsOk (calculatePreviousCoverage env.baseline) = true) :
    Event.outputSet env.totalCoverage ∈ run env := by
  obtain ⟨prev, hcalc⟩ := exists_ok_of_exceptIsOk _ hb
  rw [run_of_calc_ok env hg hm prev hcalc]
  simp

/-- Evaluation of the amended output claim on a run that passes its gate. -/
theorem output_set_when_steps_succeed_witness :
    envDiff.genhtmlFails = false ∧
    exceptIsOk (calculatePreviousCoverage envDiff.baseline) = true ∧
    Event.outputSet envDiff.totalCoverage ∈ run envDiff :=
  ⟨rfl, rfl, output_set_when_steps_succeed envDiff rfl rfl rfl⟩

/-- Claim C10: a minimum-coverage input that does not coerce to a number
makes the JS comparison false by NaN semantics, so every run that reaches the
gate is marked failed, whatever its aggregate coverage. -/
theorem nan_minimum_never_passes (env : RunEnv)
    (hg : env.genhtmlFails = false) (hm : env.mergeFails = false)
    (hb : exceptIsOk (calculatePreviousCoverage env.baseline) = true)
    (hnan : env.minimumCoverageNum = none) :
    jsGe env.totalCoverage env.minimumCoverageNum = false ∧
    ∃ pre, run env = pre ++ [Event.failed (errorMessage env)] := by
  have hfalse : jsGe env.totalCoverage env.minimumCoverageNum = false := by
    rw [hnan]
    rfl
  obtain ⟨prev, hcalc⟩ := exists_ok_of_exceptIsOk _ hb
  refine ⟨hfalse, ?_⟩
  rw [run_of_calc_ok env hg hm prev hcalc, gateEvents_of_not_reached env hfalse]
  exact ⟨_, rfl⟩

/-- Evaluation of the NaN-minimum gate at a run with coverage 85 and the
non-numeric minimum input. -/
theorem nan_minimum_never_passes_witness :
    envNanMin.minimumCoverageNum = none ∧
    jsGe envNanMin.totalCoverage envNanMin.minimumCoverageNum = false ∧
    (∃ pre, run envNanMin = pre ++ [Event.failed (errorMessage envNanMin)]) :=
  ⟨rfl, (nan_minimum_never_passes envNanMin rfl rfl rfl rfl).1,
    (nan_minimum_never_passes envNanMin rfl rfl rfl rfl).2⟩

theorem published_not_mem_htmlEvents (env : RunEnv) (b : String) :
    Event.published b ∉ htmlEvents env := by
  unfold htmlEvents
  split <;> simp

theorem published_not_mem_gateEvents (env : RunEnv) (b : String) :
    Event.published b ∉ gateEvents env := by
  unfold gateEvents
  split <;> simp

theorem coverageUploaded_not_mem_htmlEvents (env : RunEnv) (n : String) :
    Event.coverageUploaded n ∉ htmlEvents env := by
  unfold htmlEvents
  split <;> simp

theorem coverageUploaded_not_mem_gateEvents (env : RunEnv) (n : String) :
    Event.coverageUploaded n ∉ gateEvents env := by
  unfold gateEvents
  split <;> simp

theorem baselineLookup_not_mem_htmlEvents (env : RunEnv) :
    Event.baselineLookup ∉ htmlEvents env := by
  unfold htmlEvents
  split <;> simp

theorem baselineLookup_not_mem_gateEvents (env : RunEnv) :
    Event.baselineLookup ∉ gateEvents env := by
  unfold gateEvents
  split <;> simp

/-- Claim C8 counterexample: with an empty github-token but a non-empty
artifact-name input, the HTML-report upload is still performed — the token
does not gate it. -/
theorem html_upload_without_token :
    envNoToken.githubToken = "" ∧
    Event.htmlUploaded "page" ∈ run envNoToken :=
  ⟨rfl, by decide⟩

/-- Claim C8 (amended): an empty github-token skips the PR comment, the
baseline lookup and the coverage-artifact upload, with informational
logging; the HTML-report upload is governed solely by the artifact-name
input and still happens without a token. -/
theorem empty_token_skips_hosted_operations (env : RunEnv)
    (hg : env.genhtmlFails = false) (hm : env.mergeFails = false)
    (htok : strTrim env.githubToken = "") :
    (∀ b, Event.published b ∉ run env) ∧
    (∀ n, Event.coverageUploaded n ∉ run env) ∧
    Event.baselineLookup ∉ run env ∧
    Event.info "github-token received is empty. Skipping writing a comment in the PR."
      ∈ run env ∧
    Event.info "Skipping coverage artifact upload." ∈ run env ∧
    (strTrim env.htmlArtifactName ≠ "" →
      Event.htmlUploaded (strTrim env.htmlArtifactName) ∈ run env) := by
  have hc : ¬ (strTrim env.githubToken ≠ "" ∧ env.eventName ∈ events) := by
    intro h
    exact h.1 htok
  have hrun : run env
      = htmlEvents env ++ skipCommentEvents env ++ uploadEvents env
        ++ [Event.outputSet env.totalCoverage] ++ gateEvents env := by
    unfold run
    rw [hg, hm, if_neg hc]
    simp
  have hskip : skipCommentEvents env
      = [Event.info "github-token received is empty. Skipping writing a comment in the PR.",
         Event.info "Note: This could happen even if github-token was provided in workflow file. It could be because your github token does not have permissions for commenting in target repo."] := by
    unfold skipCommentEvents
    rw [if_pos htok]
  have hup : uploadEvents env
      = [Event.info "Skipping coverage artifact upload."] := by
    unfold uploadEvents
    rw [if_neg (fun h => h.1 htok)]
  refine ⟨?_, ?_, ?_, ?_, ?_, ?_⟩
  · intro b
    rw [hrun, hskip, hup]
    simp [List.mem_append, published_not_mem_htmlEvents,
      published_not_mem_gateEvents]
  · intro n
    rw [hrun, hskip, hup]
    simp [List.mem_append, coverageUploaded_not_mem_htmlEvents,
      coverageUploaded_not_mem_gateEvents]
  · rw [hrun, hskip, hup]
    simp [List.mem_append, baselineLookup_not_mem_htmlEvents,
      baselineLookup_not_mem_gateEvents]
  · rw [hrun, hskip]
    simp
  · rw [hrun, hup]
    simp
  · intro hname
    have hh : htmlEvents env
        = [Event.info "Uploading artifacts.",
           Event.htmlUploaded (strTrim env.htmlArtifactName)] := by
      unfold htmlEvents
      rw [if_neg hname]
    rw [hrun, hh]
    simp

/-- Evaluation of the empty-token behaviour: comment, baseline lookup and
coverage upload skipped, HTML upload attempted. -/
theorem empty_token_skips_hosted_operations_witness :
    strTrim envNoToken.githubToken = "" ∧
    (∀ b, Event.published b ∉ run envNoToken) ∧
    (∀ n, Event.coverageUploaded n ∉ run envNoToken) ∧
    Event.baselineLookup ∉ run envNoToken ∧
    Event.info "github-token received is empty. Skipping writing a comment in the PR."
      ∈ run envNoToken ∧
    Event.info "Skipping coverage artifact upload." ∈ run envNoToken ∧
    (strTrim envNoToken.htmlArtifactName ≠ "" →
      Event.htmlUploaded (strTrim envNoToken.htmlArtifactName) ∈ run envNoToken) := by
  have h := empty_token_skips_hosted_operations envNoToken rfl rfl rfl
  exact ⟨rfl, h.1, h.2.1, h.2.2.1, h.2.2.2.1, h.2.2.2.2.1, h.2.2.2.2.2⟩

theorem envDiff_sub :
    envDiff.totalCoverage - prevEighty.coverage
      = (⟨5, 2, by decide, by decide⟩ : ℚ) := by
  rw [Rat.sub_def]
  decide

set_option maxHeartbeats 1600000 in
/-- Claim C9: on a run that publishes, the published body embeds the diff
line; the diff line is the baseline comparison exactly when a baseline was
resolved — with the difference and both percentages rendered by the
two-decimal formatter and a plus sign for a positive difference — and the
absolute total-coverage line exactly when it was not. -/
theorem diff_line_iff_baseline (env : RunEnv)
    (hg : env.genhtmlFails = false) (hm : env.mergeFails = false)
    (prev : Option PrevCoverage)
    (hcalc : calculatePreviousCoverage env.baseline = .ok prev)
    (hc : strTrim env.githubToken ≠ "" ∧ env.eventName ∈ events) :
    Event.published (composeBody env prev
      (jsGe env.totalCoverage env.minimumCoverageNum)) ∈ run env ∧
    strIncludes (composeBody env prev
        (jsGe env.totalCoverage env.minimumCoverageNum))
      (diffMessage env prev) = true ∧
    (∀ p, prev = some p → diffMessage env prev
      = "This pull request changes total coverage "
        ++ (if 0 < env.totalCoverage - p.coverage then "+" else "")
        ++ toFixed2 (env.totalCoverage - p.coverage)
        ++ "% (" ++ toFixed2 p.coverage ++ "% -> "
        ++ toFixed2 env.totalCoverage
        ++ "%) for this [diff](" ++ compareUrl env p.targetBranchSha ++ ")") ∧
    (prev = none → diffMessage env prev
      = "Total coverage: " ++ toFixed2 env.totalCoverage ++ "%") := by
  refine ⟨?_, ?_, ?_, ?_⟩
  · rw [run_of_calc_ok env hg hm prev hcalc, if_pos hc]
    simp
  · unfold composeBody
    split
    · exact strIncludes_middle _ _ _
    · rw [String.append_assoc, String.append_assoc, String.append_assoc]
      exact strIncludes_middle _ _ _
  · intro p hp
    subst hp
    rfl
  · intro hp
    subst hp
    rfl

set_option maxHeartbeats 2000000 in
/-- Evaluation of the diff line at baseline 80% and current coverage 82.5%:
the published body carries a "+2.50% (80.00% -> 82.50%)" comparison. -/
theorem diff_line_iff_baseline_witness :
    calculatePreviousCoverage envDiff.baseline = .ok (some prevEighty) ∧
    diffMessage envDiff (some prevEighty)
      = "This pull request changes total coverage +2.50% (80.00% -> 82.50%) for this [diff](https://github.com/acme/widget/compare/basesha1...0123456abcdef)" ∧
    Event.published (composeBody envDiff (some prevEighty)
      (jsGe envDiff.totalCoverage envDiff.minimumCoverageNum)) ∈ run envDiff := by
  have h := diff_line_iff_baseline envDiff rfl rfl (some prevEighty) rfl
    ⟨by decide, by decide⟩
  refine ⟨rfl, ?_, h.1⟩
  have heq := h.2.2.1 prevEighty rfl
  rw [heq, envDiff_sub]
  decide

end ReportLcov
